import Mathlib

/-!
SSO credential service: storage, authentication service and gRPC boundary

A shallow embedding of

* `utils/storage/errors.go`            (the three error variables),
* `internal/storage/sqlite/sqlite.go`  (`Storage.SaveUser`, `User`, `IsAdmin`, `App`),
* `internal/services/auth/auth.go`     (`Auth.Login`, `RegisterNewUser`, `IsAdmin`),
* `internal/grpc/auth/server.go`       (`serverAPI.Login`, `Register`, `IsAdmin`).

Go functions returning `(value, error)` are embedded as functions returning a
pair `value × Option GoError`, where `none` is Go's `nil` error.  Calls to the
structured logger have no influence on any returned value and are left out.
-/

namespace SSO

/-- A Go byte slice. -/
abbrev Bytes := List Nat

/-! ## Error values -/

namespace storage

/-- The package-level error variables of `utils/storage/errors.go`.  Each is one
`errors.New` value, compared by identity. -/
inductive ErrVar
  | ErrUserExist
  | ErrUserNotFound
  | ErrAppNotFound
deriving DecidableEq, Repr

/-- The message each error variable was created with. -/
def ErrVar.Error : ErrVar → String
  | .ErrUserExist => "User already exists"
  | .ErrUserNotFound => "User not found"
  | .ErrAppNotFound => "Application not found"

end storage

/-- Go error values that occur in the program.

* `storageVar v`: one of the variables of `utils/storage/errors.go`;
* `foreign msg`: a value made by another package (`database/sql`, the sqlite3
  driver, `bcrypt`, the token signer); it is not one of the storage variables
  and does not unwrap to one;
* `errorString msg`: a value freshly made at run time that wraps no error;
* `wrapError msg err`: the `*fmt.wrapError` made by `fmt.Errorf` for a `%w`
  verb whose operand is the error `err`. -/
inductive GoError
  | storageVar (v : storage.ErrVar)
  | foreign (msg : String)
  | errorString (msg : String)
  | wrapError (msg : String) (err : GoError)
deriving DecidableEq, Repr

/-- The `Error()` method. -/
def GoError.Error : GoError → String
  | .storageVar v => v.Error
  | .foreign msg => msg
  | .errorString msg => msg
  | .wrapError msg _ => msg

/-- The `Unwrap()` step of `errors.Is`: only `*fmt.wrapError` has one. -/
def GoError.Unwrap : GoError → Option GoError
  | .wrapError _ err => some err
  | _ => none

/-- Go's `errors.Is(err, target)` for a target that is one of the storage error
variables: walk the `Unwrap` chain and compare by identity. -/
def errors.Is : GoError → storage.ErrVar → Bool
  | .storageVar v, target => decide (v = target)
  | .foreign _, _ => false
  | .errorString _, _ => false
  | .wrapError _ err, target => errors.Is err target

namespace fmt

/-- The dynamic type of the operand handed to the `%w` verb. -/
inductive Operand
  | err (e : GoError)
  | str (s : String)
deriving DecidableEq, Repr

/-- Go's `fmt.Errorf("%s: %w", fn, operand)`.  With an operand that implements
`error` the result wraps it.  With a string operand the verb is invalid: the
text holds the bad-verb form `%!w(string=...)` and the result is a fresh value
with no error in its `Unwrap` chain. -/
def Errorf (fn : String) : Operand → GoError
  | .err e => .wrapError (fn ++ ": " ++ e.Error) e
  | .str s => .errorString (fn ++ ": %!w(string=" ++ s ++ ")")

end fmt

/-! ## Domain models (`internal/domain/models`, fields as used by the sources) -/

namespace models

/-- The record `models.User`. -/
structure User where
  ID : Int
  Email : String
  PassHash : Bytes
deriving DecidableEq, Repr

/-- The record `models.App`. -/
structure App where
  ID : Int
  Name : String
deriving DecidableEq, Repr

end models

/-! ## The SQL database behind `sqlite.Storage` -/

namespace sql

/-- A row of table `users`. -/
structure UserRow where
  id : Int
  email : String
  pass_hash : Bytes
  is_admin : Bool
deriving DecidableEq, Repr

/-- A row of table `apps`. -/
structure AppRow where
  id : Int
  name : String
deriving DecidableEq, Repr

/-- Errors surfaced by `database/sql` and the sqlite3 driver. -/
inductive Error
  | ErrNoRows
  | sqlite3 (ExtendedCode : Nat) (msg : String)
  | driver (msg : String)
deriving DecidableEq, Repr

/-- The constant `sqlite3.ErrConstraintUnique` (SQLITE_CONSTRAINT_UNIQUE). -/
def ErrConstraintUnique : Nat := 2067

/-- The Go error value carried by a database error. -/
def Error.toGo : Error → GoError
  | .ErrNoRows => .foreign "sql: no rows in result set"
  | .sqlite3 _ msg => .foreign msg
  | .driver msg => .foreign msg

/-- Go's `errors.Is(err, sql.ErrNoRows)`. -/
def Error.isNoRows : Error → Bool
  | .ErrNoRows => true
  | _ => false

/-- Go's `errors.As(err, &sqliteErr) && sqliteErr.ExtendedCode == sqlite3.ErrConstraintUnique`. -/
def Error.isConstraintUnique : Error → Bool
  | .sqlite3 code _ => code == ErrConstraintUnique
  | _ => false

/-- The database handle `*sql.DB` with the contents of its two tables.  When
`fault` is `some msg` the handle is unusable and preparing any statement fails
with that driver message. -/
structure DB where
  users : List UserRow
  apps : List AppRow
  fault : Option String
deriving DecidableEq, Repr

/-- The call `db.Prepare(query)`: `none` is success. -/
def DB.Prepare (db : DB) : Option Error :=
  match db.fault with
  | some msg => some (.driver msg)
  | none => none

/-- Modelled from the spec: the table schema is not among the sources.  The id
of a new user is assigned by the store on creation; here it is one more than
the largest id in use (1 for an empty table). -/
def DB.nextUserID (db : DB) : Int :=
  (db.users.map (fun r => r.id)).foldl max 0 + 1

/-- The result of a successful `Exec`. -/
structure Result where
  LastInsertId : Except Error Int
deriving Repr

/-- Modelled from the spec: the table schema is not among the sources.
The statement `INSERT INTO users(email, pass_hash) VALUES(?, ?)`: `email` is
unique, which the store enforces, so a second row with a present email is
refused with the unique-constraint code; otherwise the row is added with a new
id and the admin flag unset. -/
def DB.execInsertUser (db : DB) (email : String) (passHash : Bytes) : Except Error (DB × Result) :=
  if db.users.any (fun r => r.email == email) then
    .error (.sqlite3 ErrConstraintUnique "UNIQUE constraint failed: users.email")
  else
    let id := db.nextUserID
    .ok ({ db with users := db.users ++ [{ id := id, email := email, pass_hash := passHash, is_admin := false }] },
         { LastInsertId := .ok id })

/-- The query `SELECT id, email, pass_hash FROM users WHERE email=?` followed by
`QueryRow(email).Scan(...)`. -/
def DB.queryUserByEmail (db : DB) (email : String) : Except Error models.User :=
  match db.users.find? (fun r => r.email == email) with
  | none => .error .ErrNoRows
  | some r => .ok { ID := r.id, Email := r.email, PassHash := r.pass_hash }

/-- The query `SELECT is_admin FROM users WHERE id=?` followed by `Scan`. -/
def DB.queryIsAdmin (db : DB) (userID : Int) : Except Error Bool :=
  match db.users.find? (fun r => r.id == userID) with
  | none => .error .ErrNoRows
  | some r => .ok r.is_admin

/-- The query `SELECT id, name FROM apps WHERE id=?` followed by `Scan`. -/
def DB.queryApp (db : DB) (appID : Int) : Except Error models.App :=
  match db.apps.find? (fun r => r.id == appID) with
  | none => .error .ErrNoRows
  | some r => .ok { ID := r.id, Name := r.name }

/-- The uniqueness constraints of the two tables: user emails, user ids and app
ids are pairwise distinct. -/
def DB.WF (db : DB) : Prop :=
  (db.users.map (fun r => r.email)).Nodup ∧
  (db.users.map (fun r => r.id)).Nodup ∧
  (db.apps.map (fun r => r.id)).Nodup

end sql

/-! ## `internal/storage/sqlite` -/

namespace sqlite

/-- The struct `sqlite.Storage`. -/
structure Storage where
  db : sql.DB
deriving DecidableEq, Repr

/-- The method `(*Storage).SaveUser`: returns `(id, err)` and the storage after
the call. -/
def Storage.SaveUser (s : Storage) (email : String) (passHash : Bytes) :
    (Int × Option GoError) × Storage :=
  let fn := "internal.storage.sqlite.SaveUser"
  match s.db.Prepare with
  | some err => ((0, some (fmt.Errorf fn (.err err.toGo))), s)
  | none =>
    match s.db.execInsertUser email passHash with
    | .error err =>
      if err.isConstraintUnique then
        ((0, some (fmt.Errorf fn (.err (.storageVar .ErrUserExist)))), s)
      else
        ((0, some (fmt.Errorf fn (.err err.toGo))), s)
    | .ok (db', result) =>
      match result.LastInsertId with
      | .error err => ((0, some (fmt.Errorf fn (.err err.toGo))), { db := db' })
      | .ok id => ((id, none), { db := db' })

/-- The method `(*Storage).User`. -/
def Storage.User (s : Storage) (email : String) : models.User × Option GoError :=
  let fn := "internal.storage.sqlite.User"
  match s.db.Prepare with
  | some err => ({ ID := 0, Email := "", PassHash := [] }, some (fmt.Errorf fn (.err err.toGo)))
  | none =>
    match s.db.queryUserByEmail email with
    | .error err =>
      if err.isNoRows then
        ({ ID := 0, Email := "", PassHash := [] },
          some (fmt.Errorf fn (.err (.storageVar .ErrUserNotFound))))
      else
        ({ ID := 0, Email := "", PassHash := [] }, some (fmt.Errorf fn (.err err.toGo)))
    | .ok UserToReturn => (UserToReturn, none)

/-- The method `(*Storage).IsAdmin`. -/
def Storage.IsAdmin (s : Storage) (userID : Int) : Bool × Option GoError :=
  let fn := "internal.storage.sqlite.IsAdmin"
  match s.db.Prepare with
  | some err => (false, some (fmt.Errorf fn (.err err.toGo)))
  | none =>
    match s.db.queryIsAdmin userID with
    | .error err =>
      if err.isNoRows then
        (false, some (fmt.Errorf fn (.err (.storageVar .ErrUserNotFound))))
      else
        (false, some (fmt.Errorf fn (.err err.toGo)))
    | .ok IsAdmin => (IsAdmin, none)

/-- The method `(*Storage).App`. -/
def Storage.App (s : Storage) (appID : Int) : models.App × Option GoError :=
  let fn := "internal.storage.sqlite.App"
  match s.db.Prepare with
  | some err => ({ ID := 0, Name := "" }, some (fmt.Errorf fn (.err err.toGo)))
  | none =>
    match s.db.queryApp appID with
    | .error err =>
      if err.isNoRows then
        ({ ID := 0, Name := "" }, some (fmt.Errorf fn (.err (.storageVar .ErrAppNotFound))))
      else
        ({ ID := 0, Name := "" }, some (fmt.Errorf fn (.err err.toGo)))
    | .ok AppToReturn => (AppToReturn, none)

end sqlite

/-! ## `internal/services/auth` -/

namespace services

/-- The packages `bcrypt` and `jwt` as used by the service.  `bcrypt` is an
outside library; `utils/jwt/jwt.go` is not among the sources.  Their functions
are taken as given, each reporting failure by a message of its own package.
`[]byte(password)` is handed over as the password itself. -/
structure Env where
  GenerateFromPassword : String → Nat → Except String Bytes
  CompareHashAndPassword : Bytes → String → Option String
  NewToken : models.User → models.App → Int → Except String String

/-- The constant `bcrypt.DefaultCost`. -/
def DefaultCost : Nat := 10

/-- The struct `auth.Auth`.  The fields `usrSaver`, `usrProvider` and
`appProvider` are three handles to one `sqlite.Storage`, which is passed to each
method as the current state; `tokenTTL` is a duration in nanoseconds. -/
structure Auth where
  tokenTTL : Int
deriving DecidableEq, Repr

/-- A call made by the service to one of its collaborators. -/
inductive Call
  | User (email : String)
  | SaveUser (email : String) (passHash : Bytes)
  | IsAdmin (userID : Int)
  | App (appID : Int)
  | GenerateFromPassword (password : String) (cost : Nat)
  | CompareHashAndPassword (hash : Bytes) (password : String)
  | NewToken (user : models.User) (app : models.App) (ttl : Int)
deriving DecidableEq, Repr

/-- Whether a call is the app lookup `appProvider.App`. -/
def Call.isApp : Call → Bool
  | .App _ => true
  | _ => false

/-- Whether a call is the token issuer `jwt.NewToken`. -/
def Call.isNewToken : Call → Bool
  | .NewToken _ _ _ => true
  | _ => false

/-- The method `(*Auth).Login`: returns `(token, err)` and the collaborator
calls it made, in order. -/
def Auth.Login (env : Env) (a : Auth) (st : sqlite.Storage)
    (email : String) (password : String) (appID : Int) :
    (String × Option GoError) × List Call :=
  let fn := "internal.services.auth.Login"
  match st.User email with
  | (_, some err) =>
    if errors.Is err .ErrUserNotFound then
      (("", some (fmt.Errorf fn (.err err))), [.User email])
    else
      (("", some (fmt.Errorf fn (.err err))), [.User email])
  | (user, none) =>
    match env.CompareHashAndPassword user.PassHash password with
    | some msg =>
      (("", some (fmt.Errorf fn (.err (.foreign msg)))),
        [.User email, .CompareHashAndPassword user.PassHash password])
    | none =>
      match st.App appID with
      | (_, some err) =>
        (("", some (fmt.Errorf fn (.err err))),
          [.User email, .CompareHashAndPassword user.PassHash password, .App appID])
      | (app, none) =>
        match env.NewToken user app a.tokenTTL with
        | .error msg =>
          (("", some (fmt.Errorf fn (.err (.foreign msg)))),
            [.User email, .CompareHashAndPassword user.PassHash password, .App appID,
              .NewToken user app a.tokenTTL])
        | .ok token =>
          ((token, none),
            [.User email, .CompareHashAndPassword user.PassHash password, .App appID,
              .NewToken user app a.tokenTTL])

/-- The method `(*Auth).RegisterNewUser`: returns `(id, err)`, the storage after
the call and the collaborator calls it made. -/
def Auth.RegisterNewUser (env : Env) (_a : Auth) (st : sqlite.Storage)
    (email : String) (password : String) :
    (Int × Option GoError) × sqlite.Storage × List Call :=
  let fn := "internal.services.auth.RegisterNewUser"
  match env.GenerateFromPassword password DefaultCost with
  | .error msg =>
    ((0, some (fmt.Errorf fn (.err (.foreign msg)))), st,
      [.GenerateFromPassword password DefaultCost])
  | .ok passHash =>
    match st.SaveUser email passHash with
    | ((_, some err), st') =>
      if errors.Is err .ErrUserExist then
        ((0, some (fmt.Errorf fn (.str "User already exists"))), st',
          [.GenerateFromPassword password DefaultCost, .SaveUser email passHash])
      else
        ((0, some (fmt.Errorf fn (.err err))), st',
          [.GenerateFromPassword password DefaultCost, .SaveUser email passHash])
    | ((id, none), st') =>
      ((id, none), st', [.GenerateFromPassword password DefaultCost, .SaveUser email passHash])

/-- The method `(*Auth).IsAdmin`. -/
def Auth.IsAdmin (_a : Auth) (st : sqlite.Storage) (userID : Int) :
    (Bool × Option GoError) × List Call :=
  let fn := "internal.services.auth.IsAdmin"
  match st.IsAdmin userID with
  | (_, some err) =>
    if errors.Is err .ErrAppNotFound then
      ((false, some (fmt.Errorf fn (.str "Invalid app id"))), [.IsAdmin userID])
    else
      ((false, some (fmt.Errorf fn (.err err))), [.IsAdmin userID])
  | (isAdmin, none) => ((isAdmin, none), [.IsAdmin userID])

end services

/-! ## `internal/grpc/auth` -/

namespace grpc

/-- The gRPC status codes (`google.golang.org/grpc/codes`). -/
inductive codes
  | OK
  | Canceled
  | Unknown
  | InvalidArgument
  | DeadlineExceeded
  | NotFound
  | AlreadyExists
  | PermissionDenied
  | ResourceExhausted
  | FailedPrecondition
  | Aborted
  | OutOfRange
  | Unimplemented
  | Internal
  | Unavailable
  | DataLoss
  | Unauthenticated
deriving DecidableEq, Repr

/-- The error made by `status.Error(code, msg)`. -/
structure Status where
  code : codes
  msg : String
deriving DecidableEq, Repr

/-- The message `sso.LoginRequest`; a nil or unset field reads as the zero value. -/
structure LoginRequest where
  Email : String
  Password : String
  AppId : Int
deriving DecidableEq, Repr

/-- The message `sso.RegisterRequest`. -/
structure RegisterRequest where
  Email : String
  Password : String
deriving DecidableEq, Repr

/-- The message `sso.IsAdminRequest`. -/
structure IsAdminRequest where
  UserId : Int
deriving DecidableEq, Repr

/-- The message `sso.LoginResponse`. -/
structure LoginResponse where
  Token : String
deriving DecidableEq, Repr

/-- The message `sso.RegisterResponse`. -/
structure RegisterResponse where
  UserId : Int
deriving DecidableEq, Repr

/-- The message `sso.IsAdminResponse`. -/
structure IsAdminResponse where
  IsAdmin : Bool
deriving DecidableEq, Repr

namespace validate

/-- The validator tag `required` on a string field: not the zero value. -/
def requiredString (s : String) : Bool := s != ""

/-- The validator tag `required` on an integer field: not the zero value. -/
def requiredInt (n : Int) : Bool := n != 0

/-- The validator tag `min=m` on an integer field. -/
def minInt (m : Int) (n : Int) : Bool := decide (m ≤ n)

end validate

/-- The struct `LoginRequestValidation` with its validation tags. -/
structure LoginRequestValidation where
  Email : String
  Password : String
  AppId : Int
deriving DecidableEq, Repr

/-- The struct `RegisterRequestValidation` with its validation tags. -/
structure RegisterRequestValidation where
  Email : String
  Password : String
deriving DecidableEq, Repr

/-- The struct `IsAdminRequestValidation` with its validation tags. -/
structure IsAdminRequestValidation where
  UserId : Int
deriving DecidableEq, Repr

/-- The call `validator.New().Struct(request)` on a `LoginRequestValidation`:
true when the returned error is nil. -/
def LoginRequestValidation.Struct (r : LoginRequestValidation) : Bool :=
  validate.requiredString r.Email && validate.requiredString r.Password &&
    (validate.requiredInt r.AppId && validate.minInt 1 r.AppId)

/-- The call `validator.New().Struct(request)` on a `RegisterRequestValidation`. -/
def RegisterRequestValidation.Struct (r : RegisterRequestValidation) : Bool :=
  validate.requiredString r.Email && validate.requiredString r.Password

/-- The call `validator.New().Struct(request)` on an `IsAdminRequestValidation`. -/
def IsAdminRequestValidation.Struct (r : IsAdminRequestValidation) : Bool :=
  validate.requiredInt r.UserId && validate.minInt 1 r.UserId

/-- The interface `Auth` of the boundary, over the state `σ` its implementation
works on: each method returns `(value, err)` and the state after the call. -/
structure Auth (σ : Type) where
  Login : σ → String → String → Int → (String × Option GoError) × σ
  RegisterNewUser : σ → String → String → (Int × Option GoError) × σ
  IsAdmin : σ → Int → (Bool × Option GoError) × σ

/-- The struct `serverAPI`. -/
structure serverAPI (σ : Type) where
  auth : Auth σ

/-- A call made by the boundary on its `Auth` interface, with its arguments. -/
inductive AuthCall
  | Login (email : String) (password : String) (appID : Int)
  | RegisterNewUser (email : String) (password : String)
  | IsAdmin (userID : Int)
deriving DecidableEq, Repr

/-- The method `(*serverAPI).Login`: returns `(response, err)`, the state after
the call and the calls made on the `Auth` interface. -/
def serverAPI.Login {σ : Type} (s : serverAPI σ) (w : σ) (req : LoginRequest) :
    (Option LoginResponse × Option Status) × σ × List AuthCall :=
  let request : LoginRequestValidation :=
    { Email := req.Email, Password := req.Password, AppId := req.AppId }
  if !request.Struct then
    ((none, some { code := .InvalidArgument, msg := "Request validation failed" }), w, [])
  else
    match s.auth.Login w req.Email req.Password req.AppId with
    | ((_, some _), w') =>
      ((none, some { code := .Internal, msg := "Internal error" }), w',
        [.Login req.Email req.Password req.AppId])
    | ((token, none), w') =>
      ((some { Token := token }, none), w', [.Login req.Email req.Password req.AppId])

/-- The method `(*serverAPI).Register`. -/
def serverAPI.Register {σ : Type} (s : serverAPI σ) (w : σ) (req : RegisterRequest) :
    (Option RegisterResponse × Option Status) × σ × List AuthCall :=
  let request : RegisterRequestValidation := { Email := req.Email, Password := req.Password }
  if !request.Struct then
    ((none, some { code := .InvalidArgument, msg := "Request validation failed" }), w, [])
  else
    match s.auth.RegisterNewUser w req.Email req.Password with
    | ((_, some err), w') =>
      if errors.Is err .ErrUserExist then
        ((none, some { code := .AlreadyExists, msg := "User already exists" }), w',
          [.RegisterNewUser req.Email req.Password])
      else
        ((none, some { code := .Internal, msg := "Internal error" }), w',
          [.RegisterNewUser req.Email req.Password])
    | ((userID, none), w') =>
      ((some { UserId := userID }, none), w', [.RegisterNewUser req.Email req.Password])

/-- The method `(*serverAPI).IsAdmin`. -/
def serverAPI.IsAdmin {σ : Type} (s : serverAPI σ) (w : σ) (req : IsAdminRequest) :
    (Option IsAdminResponse × Option Status) × σ × List AuthCall :=
  let request : IsAdminRequestValidation := { UserId := req.UserId }
  if !request.Struct then
    ((none, some { code := .InvalidArgument, msg := "Request validation failed" }), w, [])
  else
    match s.auth.IsAdmin w req.UserId with
    | ((_, some err), w') =>
      if errors.Is err .ErrUserNotFound then
        ((none, some { code := .AlreadyExists, msg := "User not found" }), w',
          [.IsAdmin req.UserId])
      else
        ((none, some { code := .Internal, msg := "Internal error" }), w', [.IsAdmin req.UserId])
    | ((isAdmin, none), w') =>
      ((some { IsAdmin := isAdmin }, none), w', [.IsAdmin req.UserId])

/-- The function `RegisterServer(gRPC, auth)`: the boundary is served by the
concrete service `*auth.Auth`, working on its storage. -/
def RegisterServer (env : services.Env) (auth : services.Auth) : serverAPI sqlite.Storage :=
  { auth :=
      { Login := fun st email password appID =>
          ((auth.Login env st email password appID).1, st)
        RegisterNewUser := fun st email password =>
          ((auth.RegisterNewUser env st email password).1,
            (auth.RegisterNewUser env st email password).2.1)
        IsAdmin := fun st userID => ((auth.IsAdmin st userID).1, st) } }

end grpc

end SSO

/-! ## A concrete environment and store -/

namespace SSO
namespace demo

/-- A stand-in hash: the code points of the password. -/
def hashOf (password : String) : Bytes := password.toList.map Char.toNat

/-- A concrete environment: the stand-in hash, its comparison, and an issuer that
writes its arguments into the token. -/
def env : services.Env where
  GenerateFromPassword := fun password _ => .ok (hashOf password)
  CompareHashAndPassword := fun hash password =>
    if hash = hashOf password then none
    else some "crypto/bcrypt: hashedPassword is not the hash of the given password"
  NewToken := fun user app ttl =>
    .ok (user.Email ++ "#" ++ toString user.ID ++ "@" ++ toString app.ID ++ "+" ++ toString ttl)

/-- The user row of `a@x.com` (password `secret123`, id 1). -/
def alice : sql.UserRow :=
  { id := 1, email := "a@x.com", pass_hash := hashOf "secret123", is_admin := false }

/-- A store with the one user `a@x.com` and one app (id 1). -/
def store : sqlite.Storage :=
  { db := { users := [alice]
            apps := [{ id := 1, name := "Auth" }]
            fault := none } }

/-- A service with a token lifetime of thirty minutes. -/
def svc : services.Auth := { tokenTTL := 1800000000000 }

/-- The user row of an administrator `root@x.com` (id 2). -/
def root : sql.UserRow :=
  { id := 2, email := "root@x.com", pass_hash := hashOf "toor", is_admin := true }

/-- A store with the two users `a@x.com` and the administrator `root@x.com`. -/
def adminStore : sqlite.Storage :=
  { db := { users := [alice, root]
            apps := [{ id := 1, name := "Auth" }]
            fault := none } }

end demo
end SSO

/-! ## `utils/jwt` -/

namespace SSO
namespace jwt

/-- The assertion carried by a token. -/
structure Claims where
  uid : Int
  email : String
  exp : Int
  app_id : Int
deriving DecidableEq, Repr

/-- A signed token: the assertion and its signature. -/
structure Token where
  claims : Claims
  signature : Bytes
deriving DecidableEq, Repr

/-- Modelled from the spec: the process-wide signing key with the symmetric
signature it is used for, shared with the downstream verifier
(`utils/jwt/jwt.go` is not among the sources).  The key comes from the
configuration at startup; `key` is `none` when no usable key is there, which is
the signing-key error.  `mac` is the signature, a function of key and assertion
alone. -/
structure Signer where
  key : Option Bytes
  mac : Bytes → Claims → Bytes

/-- Modelled from the spec: `jwt.NewToken` (`utils/jwt/jwt.go` is not among the
sources; only its test is).  It builds an assertion embedding `user.id`,
`user.email`, `app.id` and `now + ttl` as the expiry, then signs it with the
process-wide signing key.  Issuance fails only on a signing-key error. -/
def NewToken (s : Signer) (now : Int) (user : models.User) (app : models.App) (ttl : Int) :
    Option Token × Option GoError :=
  let claims : Claims :=
    { uid := user.ID, email := user.Email, exp := now + ttl, app_id := app.ID }
  match s.key with
  | none => (none, some (.foreign "signing key error"))
  | some k => (some { claims := claims, signature := s.mac k claims }, none)

/-- Modelled from the spec: the downstream verification of a token at the instant
`instant`.  It rejects an assertion whose signature does not match its claims or
whose expiry has passed, and otherwise yields the claims. -/
def Verify (s : Signer) (instant : Int) (token : Token) : Option Claims :=
  match s.key with
  | none => none
  | some k =>
    if token.signature = s.mac k token.claims ∧ instant < token.claims.exp then
      some token.claims
    else
      none

end jwt

namespace demo

/-- A configured signing key with a stand-in signature: the key followed by the
ids and the expiry of the assertion. -/
def signer : jwt.Signer where
  key := some [115, 51, 99]
  mac := fun k c => k ++ [c.uid.toNat, c.app_id.toNat, c.exp.toNat]

/-- The user of `TestNewToken`. -/
def testUser : models.User :=
  { ID := 1, Email := "test@example.com", PassHash := hashOf "coolpassword123" }

/-- The app of `TestNewToken`. -/
def testApp : models.App := { ID := 1, Name := "Auth" }

end demo

namespace grpc

/-- The arguments of a call on the `Auth` interface have the validated shape:
non-empty email and password, positive ids. -/
def AuthCall.validated : AuthCall → Bool
  | .Login email password appID => email != "" && password != "" && decide (1 ≤ appID)
  | .RegisterNewUser email password => email != "" && password != ""
  | .IsAdmin userID => decide (1 ≤ userID)

end grpc
end SSO

/-! ## Lookup lemmas -/

namespace SSO

theorem find_eq_none_of_forall_ne {α κ : Type} [DecidableEq κ] (key : α → κ) (k : κ) (l : List α)
    (h : ∀ r ∈ l, key r ≠ k) : l.find? (fun r => key r == k) = none := by
  induction l with
  | nil => rfl
  | cons x xs ih =>
    have hx : key x ≠ k := h x (List.mem_cons_self x xs)
    have hxs : ∀ r ∈ xs, key r ≠ k := fun r hr => h r (List.mem_cons_of_mem x hr)
    have hb : (key x == k) = false := by simpa using hx
    rw [List.find?_cons, hb]
    exact ih hxs

theorem find_eq_some_of_mem_nodup {α κ : Type} [DecidableEq κ] (key : α → κ) (l : List α)
    (hnd : (l.map key).Nodup) (r : α) (hr : r ∈ l) :
    l.find? (fun x => key x == key r) = some r := by
  induction l with
  | nil => cases hr
  | cons x xs ih =>
    rw [List.map_cons, List.nodup_cons] at hnd
    rcases List.mem_cons.mp hr with rfl | hmem
    · simp [List.find?]
    · have hne : key x ≠ key r := by
        intro heq
        exact hnd.1 (heq ▸ List.mem_map_of_mem key hmem)
      have hb : (key x == key r) = false := by simpa using hne
      rw [List.find?_cons, hb]
      exact ih hnd.2 hmem

namespace sqlite

theorem Storage.User_absent (s : Storage) (email : String) (hf : s.db.fault = none)
    (h : ∀ r ∈ s.db.users, r.email ≠ email) :
    s.User email =
      ({ ID := 0, Email := "", PassHash := [] },
        some (fmt.Errorf "internal.storage.sqlite.User" (.err (.storageVar .ErrUserNotFound)))) := by
  have hfind := find_eq_none_of_forall_ne (fun r : sql.UserRow => r.email) email s.db.users h
  simp [Storage.User, sql.DB.Prepare, hf, sql.DB.queryUserByEmail, hfind, sql.Error.isNoRows]

theorem Storage.User_present (s : Storage) (r : sql.UserRow) (hf : s.db.fault = none)
    (hnd : (s.db.users.map (fun r => r.email)).Nodup) (hr : r ∈ s.db.users) :
    s.User r.email = ({ ID := r.id, Email := r.email, PassHash := r.pass_hash }, none) := by
  have hfind := find_eq_some_of_mem_nodup (fun r : sql.UserRow => r.email) s.db.users hnd r hr
  simp [Storage.User, sql.DB.Prepare, hf, sql.DB.queryUserByEmail, hfind]

theorem Storage.User_fault (s : Storage) (email msg : String) (hf : s.db.fault = some msg) :
    s.User email =
      ({ ID := 0, Email := "", PassHash := [] },
        some (fmt.Errorf "internal.storage.sqlite.User" (.err (.foreign msg)))) := by
  simp [Storage.User, sql.DB.Prepare, hf, sql.Error.toGo]

theorem Storage.App_absent (s : Storage) (appID : Int) (hf : s.db.fault = none)
    (h : ∀ r ∈ s.db.apps, r.id ≠ appID) :
    s.App appID =
      ({ ID := 0, Name := "" },
        some (fmt.Errorf "internal.storage.sqlite.App" (.err (.storageVar .ErrAppNotFound)))) := by
  have hfind := find_eq_none_of_forall_ne (fun r : sql.AppRow => r.id) appID s.db.apps h
  simp [Storage.App, sql.DB.Prepare, hf, sql.DB.queryApp, hfind, sql.Error.isNoRows]

theorem Storage.App_present (s : Storage) (r : sql.AppRow) (hf : s.db.fault = none)
    (hnd : (s.db.apps.map (fun r => r.id)).Nodup) (hr : r ∈ s.db.apps) :
    s.App r.id = ({ ID := r.id, Name := r.name }, none) := by
  have hfind := find_eq_some_of_mem_nodup (fun r : sql.AppRow => r.id) s.db.apps hnd r hr
  simp [Storage.App, sql.DB.Prepare, hf, sql.DB.queryApp, hfind]

theorem Storage.IsAdmin_absent (s : Storage) (userID : Int) (hf : s.db.fault = none)
    (h : ∀ r ∈ s.db.users, r.id ≠ userID) :
    s.IsAdmin userID =
      (false,
        some (fmt.Errorf "internal.storage.sqlite.IsAdmin" (.err (.storageVar .ErrUserNotFound)))) := by
  have hfind := find_eq_none_of_forall_ne (fun r : sql.UserRow => r.id) userID s.db.users h
  simp [Storage.IsAdmin, sql.DB.Prepare, hf, sql.DB.queryIsAdmin, hfind, sql.Error.isNoRows]

theorem Storage.IsAdmin_present (s : Storage) (r : sql.UserRow) (hf : s.db.fault = none)
    (hnd : (s.db.users.map (fun r => r.id)).Nodup) (hr : r ∈ s.db.users) :
    s.IsAdmin r.id = (r.is_admin, none) := by
  have hfind := find_eq_some_of_mem_nodup (fun r : sql.UserRow => r.id) s.db.users hnd r hr
  simp [Storage.IsAdmin, sql.DB.Prepare, hf, sql.DB.queryIsAdmin, hfind]

/-- The error of the storage lookup `IsAdmin` never matches `ErrAppNotFound`. -/
theorem Storage.IsAdmin_not_app (s : Storage) (userID : Int) (b : Bool) (err : GoError)
    (h : s.IsAdmin userID = (b, some err)) : errors.Is err .ErrAppNotFound = false := by
  unfold Storage.IsAdmin at h
  cases hp : s.db.Prepare with
  | some e =>
    simp [hp] at h
    cases e <;> (rw [← h.2]; simp [fmt.Errorf, errors.Is, sql.Error.toGo])
  | none =>
    simp only [hp] at h
    cases hq : s.db.queryIsAdmin userID with
    | error e =>
      simp only [hq] at h
      cases e <;> simp [sql.Error.isNoRows] at h <;>
        (rw [← h.2]; simp [fmt.Errorf, errors.Is, sql.Error.toGo])
    | ok v => simp [hq] at h

theorem Storage.SaveUser_duplicate (s : Storage) (email : String) (passHash : Bytes)
    (hf : s.db.fault = none) (r : sql.UserRow) (hr : r ∈ s.db.users) (he : r.email = email) :
    s.SaveUser email passHash =
      ((0, some (fmt.Errorf "internal.storage.sqlite.SaveUser" (.err (.storageVar .ErrUserExist)))), s) := by
  have hany : s.db.users.any (fun r => r.email == email) = true := by
    rw [List.any_eq_true]
    exact ⟨r, hr, by simp [he]⟩
  simp [Storage.SaveUser, sql.DB.Prepare, hf, sql.DB.execInsertUser, hany,
    sql.Error.isConstraintUnique]

theorem Storage.SaveUser_fresh (s : Storage) (email : String) (passHash : Bytes)
    (hf : s.db.fault = none) (h : ∀ r ∈ s.db.users, r.email ≠ email) :
    s.SaveUser email passHash =
      ((s.db.nextUserID, none),
        { db := { s.db with users := s.db.users ++
            [{ id := s.db.nextUserID, email := email, pass_hash := passHash, is_admin := false }] } }) := by
  have hany : s.db.users.any (fun r => r.email == email) = false := by
    rw [List.any_eq_false]
    intro r hr
    simpa using h r hr
  simp [Storage.SaveUser, sql.DB.Prepare, hf, sql.DB.execInsertUser, hany]

end sqlite
end SSO

namespace SSO

theorem le_foldl_max (l : List Int) (a : Int) :
    a ≤ l.foldl max a ∧ ∀ x ∈ l, x ≤ l.foldl max a := by
  induction l generalizing a with
  | nil => simp
  | cons y ys ih =>
    obtain ⟨h1, h2⟩ := ih (max a y)
    refine ⟨le_trans (le_max_left a y) h1, ?_⟩
    intro x hx
    rcases List.mem_cons.mp hx with rfl | hmem
    · exact le_trans (le_max_right a x) h1
    · exact h2 x hmem

theorem sql.DB.nextUserID_fresh (db : sql.DB) : db.nextUserID ∉ db.users.map (fun r => r.id) := by
  intro hmem
  have := (le_foldl_max (db.users.map (fun r => r.id)) 0).2 _ hmem
  unfold sql.DB.nextUserID at this
  omega

/-- The uniqueness constraints are kept by `Storage.SaveUser`. -/
theorem sqlite.Storage.SaveUser_preserves_WF (s : sqlite.Storage) (email : String)
    (passHash : Bytes) (h : s.db.WF) : (s.SaveUser email passHash).2.db.WF := by
  unfold sqlite.Storage.SaveUser
  cases hp : s.db.Prepare with
  | some e => simpa [hp] using h
  | none =>
    by_cases hany : s.db.users.any (fun r => r.email == email) = true
    · simpa [hp, sql.DB.execInsertUser, hany, sql.Error.isConstraintUnique] using h
    · have hfresh : email ∉ s.db.users.map (fun r => r.email) := by
        intro hmem
        obtain ⟨r, hr, he⟩ := List.mem_map.mp hmem
        exact hany (List.any_eq_true.mpr ⟨r, hr, by simp [he]⟩)
      obtain ⟨h1, h2, h3⟩ := h
      have hany' : s.db.users.any (fun r => r.email == email) = false := by
        simpa using hany
      simp only [hp, sql.DB.execInsertUser, hany', sql.DB.WF, Bool.false_eq_true, if_false]
      refine ⟨?_, ?_, h3⟩
      · simp only [List.map_append, List.map_cons, List.map_nil]
        refine List.Nodup.append h1 (List.nodup_singleton _) ?_
        simpa [List.disjoint_singleton] using hfresh
      · simp only [List.map_append, List.map_cons, List.map_nil]
        refine List.Nodup.append h2 (List.nodup_singleton _) ?_
        simpa [List.disjoint_singleton] using sql.DB.nextUserID_fresh s.db

end SSO

/-! ## Service lemmas -/

namespace SSO

theorem find_append_singleton {α : Type} (p : α → Bool) (l : List α) (x : α)
    (hl : l.find? p = none) (hx : p x = true) : (l ++ [x]).find? p = some x := by
  rw [List.find?_append, hl]
  simp [List.find?, hx]

namespace services

theorem Auth.Login_user_error (env : Env) (a : Auth) (st : sqlite.Storage)
    (email password : String) (appID : Int) (u : models.User) (err : GoError)
    (h : st.User email = (u, some err)) :
    a.Login env st email password appID =
      (("", some (fmt.Errorf "internal.services.auth.Login" (.err err))), [.User email]) := by
  simp [Auth.Login, h]

theorem Auth.Login_bad_password (env : Env) (a : Auth) (st : sqlite.Storage)
    (email password : String) (appID : Int) (u : models.User) (msg : String)
    (h : st.User email = (u, none)) (hc : env.CompareHashAndPassword u.PassHash password = some msg) :
    a.Login env st email password appID =
      (("", some (fmt.Errorf "internal.services.auth.Login" (.err (.foreign msg)))),
        [.User email, .CompareHashAndPassword u.PassHash password]) := by
  simp [Auth.Login, h, hc]

theorem Auth.Login_app_error (env : Env) (a : Auth) (st : sqlite.Storage)
    (email password : String) (appID : Int) (u : models.User) (app : models.App) (err : GoError)
    (h : st.User email = (u, none)) (hc : env.CompareHashAndPassword u.PassHash password = none)
    (happ : st.App appID = (app, some err)) :
    a.Login env st email password appID =
      (("", some (fmt.Errorf "internal.services.auth.Login" (.err err))),
        [.User email, .CompareHashAndPassword u.PassHash password, .App appID]) := by
  simp [Auth.Login, h, hc, happ]

theorem Auth.Login_issued (env : Env) (a : Auth) (st : sqlite.Storage)
    (email password : String) (appID : Int) (u : models.User) (app : models.App) (tok : String)
    (h : st.User email = (u, none)) (hc : env.CompareHashAndPassword u.PassHash password = none)
    (happ : st.App appID = (app, none)) (ht : env.NewToken u app a.tokenTTL = .ok tok) :
    a.Login env st email password appID =
      ((tok, none),
        [.User email, .CompareHashAndPassword u.PassHash password, .App appID,
          .NewToken u app a.tokenTTL]) := by
  simp [Auth.Login, h, hc, happ, ht]

theorem Auth.RegisterNewUser_fresh (env : Env) (a : Auth) (st : sqlite.Storage)
    (email password : String) (passHash : Bytes) (hf : st.db.fault = none)
    (hfresh : ∀ r ∈ st.db.users, r.email ≠ email)
    (hhash : env.GenerateFromPassword password DefaultCost = .ok passHash) :
    a.RegisterNewUser env st email password =
      ((st.db.nextUserID, none),
        { db := { st.db with users := st.db.users ++
            [{ id := st.db.nextUserID, email := email, pass_hash := passHash, is_admin := false }] } },
        [.GenerateFromPassword password DefaultCost, .SaveUser email passHash]) := by
  simp only [Auth.RegisterNewUser, hhash, sqlite.Storage.SaveUser_fresh st email passHash hf hfresh]

theorem Auth.RegisterNewUser_duplicate (env : Env) (a : Auth) (st : sqlite.Storage)
    (email password : String) (passHash : Bytes) (r : sql.UserRow) (hf : st.db.fault = none)
    (hr : r ∈ st.db.users) (he : r.email = email)
    (hhash : env.GenerateFromPassword password DefaultCost = .ok passHash) :
    a.RegisterNewUser env st email password =
      ((0, some (fmt.Errorf "internal.services.auth.RegisterNewUser" (.str "User already exists"))),
        st, [.GenerateFromPassword password DefaultCost, .SaveUser email passHash]) := by
  simp [Auth.RegisterNewUser, hhash, sqlite.Storage.SaveUser_duplicate st email passHash hf r hr he,
    fmt.Errorf, errors.Is]

theorem Auth.IsAdmin_unknown_user (a : Auth) (st : sqlite.Storage) (userID : Int)
    (hf : st.db.fault = none) (h : ∀ r ∈ st.db.users, r.id ≠ userID) :
    a.IsAdmin st userID =
      ((false, some (fmt.Errorf "internal.services.auth.IsAdmin"
          (.err (fmt.Errorf "internal.storage.sqlite.IsAdmin" (.err (.storageVar .ErrUserNotFound)))))),
        [.IsAdmin userID]) := by
  simp [Auth.IsAdmin, sqlite.Storage.IsAdmin_absent st userID hf h, fmt.Errorf, errors.Is]

end services
end SSO

/-! ## Claims -/

namespace SSO

/-- C1 (fails on the code): registering an email that is already stored.  On the
store holding `a@x.com`, `Storage.SaveUser` reports an error that matches
`ErrUserExist`, but `Auth.RegisterNewUser` returns an error that no longer
matches it, and `serverAPI.Register` answers with code `Internal` instead of
`AlreadyExists`. -/
theorem C1_register_duplicate_email_is_internal :
    (∃ e, (demo.store.SaveUser "a@x.com" (demo.hashOf "other")).1.2 = some e ∧
      errors.Is e .ErrUserExist = true) ∧
    (∃ e, (demo.svc.RegisterNewUser demo.env demo.store "a@x.com" "other").1.2 = some e ∧
      errors.Is e .ErrUserExist = false) ∧
    ((grpc.RegisterServer demo.env demo.svc).Register demo.store
        { Email := "a@x.com", Password := "other" }).1 =
      (none, some { code := .Internal, msg := "Internal error" }) := by
  refine ⟨⟨_, rfl, by decide⟩, ⟨_, rfl, by decide⟩, by decide⟩

/-- C2 (counterexample): on the store holding `a@x.com`, `Auth.Login` with the
unknown email `b@x.com` and `Auth.Login` with `a@x.com` and a wrong password fail
with errors of different kinds: the first matches `ErrUserNotFound`, the second
does not. -/
theorem C2_counterexample :
    ∃ e1 e2,
      (demo.svc.Login demo.env demo.store "b@x.com" "secret123" 1).1 = ("", some e1) ∧
      (demo.svc.Login demo.env demo.store "a@x.com" "wrong" 1).1 = ("", some e2) ∧
      errors.Is e1 .ErrUserNotFound = true ∧
      errors.Is e2 .ErrUserNotFound = false :=
  ⟨_, _, rfl, rfl, by decide, by decide⟩

/-- C2 (amended): on every working store with distinct emails, `Auth.Login` with
an absent email and `Auth.Login` with a stored email whose password does not
verify both fail without a token, and the two errors differ in kind: the
unknown-email error matches `ErrUserNotFound`, the wrong-password error wraps
the comparison error and does not match it. -/
theorem C2_login_failures_differ_in_kind (env : services.Env) (a : services.Auth)
    (st : sqlite.Storage) (email1 password1 password2 : String) (appID : Int) (r : sql.UserRow)
    (hf : st.db.fault = none) (hnd : (st.db.users.map (fun r => r.email)).Nodup)
    (habsent : ∀ x ∈ st.db.users, x.email ≠ email1)
    (hr : r ∈ st.db.users)
    (hbad : env.CompareHashAndPassword r.pass_hash password2 ≠ none) :
    ∃ e1 e2,
      (a.Login env st email1 password1 appID).1 = ("", some e1) ∧
      (a.Login env st r.email password2 appID).1 = ("", some e2) ∧
      errors.Is e1 .ErrUserNotFound = true ∧
      errors.Is e2 .ErrUserNotFound = false ∧
      ∃ msg, env.CompareHashAndPassword r.pass_hash password2 = some msg ∧
        e2 = fmt.Errorf "internal.services.auth.Login" (.err (.foreign msg)) := by
  obtain ⟨msg, hmsg⟩ := Option.ne_none_iff_exists'.mp hbad
  have h1 := services.Auth.Login_user_error env a st email1 password1 appID _ _
    (sqlite.Storage.User_absent st email1 hf habsent)
  have h2 := services.Auth.Login_bad_password env a st r.email password2 appID _ msg
    (sqlite.Storage.User_present st r hf hnd hr) hmsg
  refine ⟨_, _, congrArg Prod.fst h1, congrArg Prod.fst h2, ?_, ?_, msg, hmsg, rfl⟩
  · simp [fmt.Errorf, errors.Is]
  · simp [fmt.Errorf, errors.Is]

/-- Witness of C2 (amended) on the concrete store. -/
theorem C2_login_failures_differ_in_kind_witness :
    ∃ e1 e2,
      (demo.svc.Login demo.env demo.store "b@x.com" "pw" 1).1 = ("", some e1) ∧
      (demo.svc.Login demo.env demo.store "a@x.com" "wrong" 1).1 = ("", some e2) ∧
      errors.Is e1 .ErrUserNotFound = true ∧
      errors.Is e2 .ErrUserNotFound = false ∧
      ∃ msg, demo.env.CompareHashAndPassword demo.alice.pass_hash "wrong" = some msg ∧
        e2 = fmt.Errorf "internal.services.auth.Login" (.err (.foreign msg)) :=
  C2_login_failures_differ_in_kind demo.env demo.svc demo.store "b@x.com" "pw" "wrong" 1
    demo.alice rfl (by decide) (by decide) (by decide) (by decide)

/-- C3: on every working store in which the user with the given email exists and
the password verifies against the stored hash, but no app has the given id,
`Auth.Login` returns the empty token with an error that matches
`ErrAppNotFound`, and the token issuer is not called. -/
theorem C3_login_unknown_app (env : services.Env) (a : services.Auth) (st : sqlite.Storage)
    (email password : String) (appID : Int) (r : sql.UserRow)
    (hf : st.db.fault = none) (hnd : (st.db.users.map (fun r => r.email)).Nodup)
    (hr : r ∈ st.db.users) (hemail : r.email = email)
    (hpw : env.CompareHashAndPassword r.pass_hash password = none)
    (happ : ∀ x ∈ st.db.apps, x.id ≠ appID) :
    ∃ e,
      (a.Login env st email password appID).1 = ("", some e) ∧
      errors.Is e .ErrAppNotFound = true ∧
      ∀ c ∈ (a.Login env st email password appID).2, c.isNewToken = false := by
  subst hemail
  have h := services.Auth.Login_app_error env a st r.email password appID _ _ _
    (sqlite.Storage.User_present st r hf hnd hr) hpw (sqlite.Storage.App_absent st appID hf happ)
  refine ⟨_, congrArg Prod.fst h, ?_, ?_⟩
  · simp [fmt.Errorf, errors.Is]
  · rw [h]
    intro c hc
    simp at hc
    rcases hc with rfl | rfl | rfl <;> rfl

/-- Witness of C3 on the concrete store: `a@x.com` with the right password and
the unknown app id 7. -/
theorem C3_login_unknown_app_witness :
    ∃ e,
      (demo.svc.Login demo.env demo.store "a@x.com" "secret123" 7).1 = ("", some e) ∧
      errors.Is e .ErrAppNotFound = true ∧
      ∀ c ∈ (demo.svc.Login demo.env demo.store "a@x.com" "secret123" 7).2,
        c.isNewToken = false :=
  C3_login_unknown_app demo.env demo.svc demo.store "a@x.com" "secret123" 7
    demo.alice
    rfl (by decide) (by decide) rfl (by decide) (by decide)

/-- C4: the password is checked before the app lookup.  On every store with
distinct emails, when the user is missing or the password does not verify
against the stored hash, `Auth.Login` gives one and the same result and call
sequence for every app id: an error that does not match `ErrAppNotFound`, with
no app lookup among the calls.  On a working store that error is the credential
failure: it matches `ErrUserNotFound` (user missing) or wraps the comparison
error (password not verified). -/
theorem C4_password_checked_before_app (env : services.Env) (a : services.Auth)
    (st : sqlite.Storage) (email password : String)
    (hnd : (st.db.users.map (fun r => r.email)).Nodup)
    (h : (∀ r ∈ st.db.users, r.email ≠ email) ∨
      (∃ r ∈ st.db.users, r.email = email ∧
        env.CompareHashAndPassword r.pass_hash password ≠ none)) :
    ∃ e tr,
      (∀ appID, a.Login env st email password appID = (("", some e), tr)) ∧
      errors.Is e .ErrAppNotFound = false ∧
      (∀ c ∈ tr, c.isApp = false) ∧
      (st.db.fault = none →
        errors.Is e .ErrUserNotFound = true ∨
        ∃ r ∈ st.db.users, ∃ msg, r.email = email ∧
          env.CompareHashAndPassword r.pass_hash password = some msg ∧
          e = fmt.Errorf "internal.services.auth.Login" (.err (.foreign msg))) := by
  cases hfault : st.db.fault with
  | some m =>
    refine ⟨_, _, fun appID => services.Auth.Login_user_error env a st email password appID _ _
      (sqlite.Storage.User_fault st email m hfault), ?_, ?_, ?_⟩
    · simp [fmt.Errorf, errors.Is]
    · intro c hc
      simp at hc
      subst hc
      rfl
    · intro hcontra
      cases hcontra
  | none =>
    rcases h with habsent | ⟨r, hr, hemail, hbad⟩
    · refine ⟨_, _, fun appID => services.Auth.Login_user_error env a st email password appID _ _
        (sqlite.Storage.User_absent st email hfault habsent), ?_, ?_, ?_⟩
      · simp [fmt.Errorf, errors.Is]
      · intro c hc
        simp at hc
        subst hc
        rfl
      · intro _
        left
        simp [fmt.Errorf, errors.Is]
    · subst hemail
      obtain ⟨msg, hmsg⟩ := Option.ne_none_iff_exists'.mp hbad
      refine ⟨_, _, fun appID => services.Auth.Login_bad_password env a st r.email password appID
        _ msg (sqlite.Storage.User_present st r hfault hnd hr) hmsg, ?_, ?_, ?_⟩
      · simp [fmt.Errorf, errors.Is]
      · intro c hc
        simp at hc
        rcases hc with rfl | rfl <;> rfl
      · intro _
        right
        exact ⟨r, hr, msg, rfl, hmsg, rfl⟩

/-- Witness of C4 on the concrete store: `a@x.com` with a wrong password. -/
theorem C4_password_checked_before_app_witness :
    ∃ e tr,
      (∀ appID, demo.svc.Login demo.env demo.store "a@x.com" "wrong" appID = (("", some e), tr)) ∧
      errors.Is e .ErrAppNotFound = false ∧
      (∀ c ∈ tr, c.isApp = false) ∧
      (demo.store.db.fault = none →
        errors.Is e .ErrUserNotFound = true ∨
        ∃ r ∈ demo.store.db.users, ∃ msg, r.email = "a@x.com" ∧
          demo.env.CompareHashAndPassword r.pass_hash "wrong" = some msg ∧
          e = fmt.Errorf "internal.services.auth.Login" (.err (.foreign msg))) :=
  C4_password_checked_before_app demo.env demo.svc demo.store "a@x.com" "wrong" (by decide)
    (Or.inr ⟨demo.alice, by decide, rfl, by decide⟩)

end SSO

namespace SSO

/-- C5 (fails on the code): the user id 42 is absent from the store.
`Auth.IsAdmin` returns an error that matches `ErrUserNotFound`, and
`serverAPI.IsAdmin` answers with code `AlreadyExists` (message `User not found`),
not with code `NotFound`. -/
theorem C5_isadmin_unknown_user_is_already_exists :
    (∃ e, (demo.svc.IsAdmin demo.store 42).1 = (false, some e) ∧
      errors.Is e .ErrUserNotFound = true) ∧
    ((grpc.RegisterServer demo.env demo.svc).IsAdmin demo.store { UserId := 42 }).1 =
      (none, some { code := .AlreadyExists, msg := "User not found" }) ∧
    grpc.codes.AlreadyExists ≠ grpc.codes.NotFound :=
  ⟨⟨_, rfl, by decide⟩, by decide, by decide⟩

/-- C6: `Auth.IsAdmin` mirrors the store.  On a working store with distinct user
ids it returns exactly the stored flag of every stored user, with no error, and
for an id that no user has it returns `false` with an error that matches
`ErrUserNotFound`.  On every store, its result is never the `Invalid app id`
error of its `ErrAppNotFound` branch. -/
theorem C6_isadmin_mirrors_store (a : services.Auth) (st : sqlite.Storage) :
    (st.db.fault = none → (st.db.users.map (fun r => r.id)).Nodup →
      (∀ r ∈ st.db.users, (a.IsAdmin st r.id).1 = (r.is_admin, none)) ∧
      (∀ userID, (∀ r ∈ st.db.users, r.id ≠ userID) →
        ∃ e, (a.IsAdmin st userID).1 = (false, some e) ∧
          errors.Is e .ErrUserNotFound = true)) ∧
    (∀ userID, (a.IsAdmin st userID).1.2 ≠
      some (fmt.Errorf "internal.services.auth.IsAdmin" (.str "Invalid app id"))) := by
  refine ⟨fun hf hnd => ⟨?_, ?_⟩, ?_⟩
  · intro r hr
    simp [services.Auth.IsAdmin, sqlite.Storage.IsAdmin_present st r hf hnd hr]
  · intro userID habsent
    refine ⟨_, congrArg Prod.fst (services.Auth.IsAdmin_unknown_user a st userID hf habsent), ?_⟩
    simp [fmt.Errorf, errors.Is]
  · intro userID
    unfold services.Auth.IsAdmin
    rcases hres : st.IsAdmin userID with ⟨b, _ | err⟩
    · simp
    · have hno := sqlite.Storage.IsAdmin_not_app st userID b err hres
      simp [hno, fmt.Errorf]

/-- Witness of C6 on the store with an administrator: the stored flags of both
users (one unset, one set) are returned, and the absent id 42 is not found. -/
theorem C6_isadmin_mirrors_store_witness :
    ((∀ r ∈ demo.adminStore.db.users,
        (demo.svc.IsAdmin demo.adminStore r.id).1 = (r.is_admin, none)) ∧
      (∀ userID, (∀ r ∈ demo.adminStore.db.users, r.id ≠ userID) →
        ∃ e, (demo.svc.IsAdmin demo.adminStore userID).1 = (false, some e) ∧
          errors.Is e .ErrUserNotFound = true)) ∧
    (demo.svc.IsAdmin demo.adminStore 2).1 = (true, none) ∧
    (demo.svc.IsAdmin demo.adminStore 1).1 = (false, none) :=
  ⟨(C6_isadmin_mirrors_store demo.svc demo.adminStore).1 rfl (by decide),
    ((C6_isadmin_mirrors_store demo.svc demo.adminStore).1 rfl (by decide)).1 demo.root
      (by decide),
    ((C6_isadmin_mirrors_store demo.svc demo.adminStore).1 rfl (by decide)).1 demo.alice
      (by decide)⟩

/-- C7: register, then log in.  On every working store, for an email not yet
stored, a password whose hashing succeeds and verifies against its own hash, and
the id of a stored app, `Auth.RegisterNewUser` succeeds with some id `u`, and on
the resulting store `Auth.Login` with the same credentials returns, with no
error, exactly the token the issuer produces for the user `(u, email, hash)`,
that app and the configured `tokenTTL`, whenever the issuer does not fail. -/
theorem C7_register_then_login (env : services.Env) (a : services.Auth) (st : sqlite.Storage)
    (email password : String) (appID : Int) (app : sql.AppRow) (passHash : Bytes)
    (hf : st.db.fault = none)
    (hfresh : ∀ r ∈ st.db.users, r.email ≠ email)
    (happs : (st.db.apps.map (fun r => r.id)).Nodup)
    (happ : app ∈ st.db.apps) (hid : app.id = appID)
    (hhash : env.GenerateFromPassword password services.DefaultCost = .ok passHash)
    (hverify : env.CompareHashAndPassword passHash password = none) :
    ∃ u st' tr,
      a.RegisterNewUser env st email password = ((u, none), st', tr) ∧
      ∀ tok,
        env.NewToken { ID := u, Email := email, PassHash := passHash }
            { ID := app.id, Name := app.name } a.tokenTTL = .ok tok →
        (a.Login env st' email password appID).1 = (tok, none) := by
  subst hid
  refine ⟨_, _, _,
    services.Auth.RegisterNewUser_fresh env a st email password passHash hf hfresh hhash, ?_⟩
  · intro tok htok
    have hnone := find_eq_none_of_forall_ne (fun r : sql.UserRow => r.email) email st.db.users hfresh
    have hfind := find_append_singleton (fun r : sql.UserRow => r.email == email) st.db.users
      { id := st.db.nextUserID, email := email, pass_hash := passHash, is_admin := false }
      hnone (by simp)
    have huser : sqlite.Storage.User
        { db := { st.db with users := st.db.users ++
          [{ id := st.db.nextUserID, email := email, pass_hash := passHash, is_admin := false }] } }
        email = ({ ID := st.db.nextUserID, Email := email, PassHash := passHash }, none) := by
      simp [sqlite.Storage.User, sql.DB.Prepare, hf, sql.DB.queryUserByEmail, hfind]
    have happ' : sqlite.Storage.App
        { db := { st.db with users := st.db.users ++
          [{ id := st.db.nextUserID, email := email, pass_hash := passHash, is_admin := false }] } }
        app.id = ({ ID := app.id, Name := app.name }, none) :=
      sqlite.Storage.App_present _ app hf happs happ
    exact congrArg Prod.fst
      (services.Auth.Login_issued env a _ email password app.id _ _ tok huser hverify happ' htok)

/-- Witness of C7 on the concrete store: registering `b@x.com` gives id 2, and the
login that follows returns the token issued for that user and app 1. -/
theorem C7_register_then_login_witness :
    ∃ u st' tr,
      demo.svc.RegisterNewUser demo.env demo.store "b@x.com" "pw" = ((u, none), st', tr) ∧
      ∀ tok,
        demo.env.NewToken { ID := u, Email := "b@x.com", PassHash := demo.hashOf "pw" }
            { ID := 1, Name := "Auth" } demo.svc.tokenTTL = .ok tok →
        (demo.svc.Login demo.env st' "b@x.com" "pw" 1).1 = (tok, none) :=
  C7_register_then_login demo.env demo.svc demo.store "b@x.com" "pw" 1
    { id := 1, name := "Auth" } (demo.hashOf "pw") rfl (by decide) (by decide) (by decide) rfl
    rfl (by decide)

end SSO

namespace SSO

/-- On every working store, registering a stored email through the boundary
answers with code `Internal`, whenever hashing the password succeeds. -/
theorem Register_duplicate_always_internal (env : services.Env) (a : services.Auth)
    (st : sqlite.Storage) (req : grpc.RegisterRequest) (passHash : Bytes) (r : sql.UserRow)
    (hf : st.db.fault = none) (hr : r ∈ st.db.users) (he : r.email = req.Email)
    (hemail : req.Email ≠ "") (hpw : req.Password ≠ "")
    (hhash : env.GenerateFromPassword req.Password services.DefaultCost = .ok passHash) :
    ((grpc.RegisterServer env a).Register st req).1 =
      (none, some { code := .Internal, msg := "Internal error" }) := by
  have hreg := services.Auth.RegisterNewUser_duplicate env a st req.Email req.Password passHash r
    hf hr he hhash
  simp [grpc.serverAPI.Register, grpc.RegisterRequestValidation.Struct,
    grpc.validate.requiredString, hemail, hpw, grpc.RegisterServer, hreg, fmt.Errorf, errors.Is]

/-- On every working store, asking the boundary for the admin flag of an absent
positive user id answers with code `AlreadyExists`. -/
theorem IsAdmin_absent_always_already_exists (env : services.Env) (a : services.Auth)
    (st : sqlite.Storage) (req : grpc.IsAdminRequest)
    (hf : st.db.fault = none) (habsent : ∀ r ∈ st.db.users, r.id ≠ req.UserId)
    (hid : 1 ≤ req.UserId) :
    ((grpc.RegisterServer env a).IsAdmin st req).1 =
      (none, some { code := .AlreadyExists, msg := "User not found" }) := by
  have hadm := services.Auth.IsAdmin_unknown_user a st req.UserId hf habsent
  have hne : req.UserId ≠ 0 := by omega
  simp [grpc.serverAPI.IsAdmin, grpc.IsAdminRequestValidation.Struct,
    grpc.validate.requiredInt, grpc.validate.minInt, hid, hne, grpc.RegisterServer, hadm,
    fmt.Errorf, errors.Is]

/-- C8: inputs are validated before the service is reached.  For every
implementation of the `Auth` interface and every state: a Login request with an
empty email, an empty password or an app id below 1, a Register request with an
empty email or password, and an IsAdmin request with a user id below 1 are each
answered with `InvalidArgument`, the state unchanged and no call made on the
interface.  Conversely every call the boundary makes on the interface carries
the fields of the request, with non-empty email and password and a positive
id. -/
theorem C8_inputs_validated_before_service {σ : Type} (s : grpc.serverAPI σ) (w : σ) :
    (∀ req : grpc.LoginRequest, (req.Email = "" ∨ req.Password = "" ∨ req.AppId < 1) →
      s.Login w req =
        ((none, some { code := .InvalidArgument, msg := "Request validation failed" }), w, [])) ∧
    (∀ req : grpc.RegisterRequest, (req.Email = "" ∨ req.Password = "") →
      s.Register w req =
        ((none, some { code := .InvalidArgument, msg := "Request validation failed" }), w, [])) ∧
    (∀ req : grpc.IsAdminRequest, req.UserId < 1 →
      s.IsAdmin w req =
        ((none, some { code := .InvalidArgument, msg := "Request validation failed" }), w, [])) ∧
    (∀ (req : grpc.LoginRequest), ∀ c ∈ (s.Login w req).2.2,
      c = .Login req.Email req.Password req.AppId ∧ c.validated = true) ∧
    (∀ (req : grpc.RegisterRequest), ∀ c ∈ (s.Register w req).2.2,
      c = .RegisterNewUser req.Email req.Password ∧ c.validated = true) ∧
    (∀ (req : grpc.IsAdminRequest), ∀ c ∈ (s.IsAdmin w req).2.2,
      c = .IsAdmin req.UserId ∧ c.validated = true) := by
  refine ⟨?_, ?_, ?_, ?_, ?_, ?_⟩
  · intro req h
    have hv : grpc.LoginRequestValidation.Struct
        { Email := req.Email, Password := req.Password, AppId := req.AppId } = false := by
      rcases h with h | h | h
      · simp [grpc.LoginRequestValidation.Struct, grpc.validate.requiredString, h]
      · simp [grpc.LoginRequestValidation.Struct, grpc.validate.requiredString, h]
      · have : ¬ (1 ≤ req.AppId) := by omega
        simp [grpc.LoginRequestValidation.Struct, grpc.validate.minInt, this]
    simp [grpc.serverAPI.Login, hv]
  · intro req h
    have hv : grpc.RegisterRequestValidation.Struct
        { Email := req.Email, Password := req.Password } = false := by
      rcases h with h | h
      · simp [grpc.RegisterRequestValidation.Struct, grpc.validate.requiredString, h]
      · simp [grpc.RegisterRequestValidation.Struct, grpc.validate.requiredString, h]
    simp [grpc.serverAPI.Register, hv]
  · intro req h
    have hv : grpc.IsAdminRequestValidation.Struct { UserId := req.UserId } = false := by
      have : ¬ (1 ≤ req.UserId) := by omega
      simp [grpc.IsAdminRequestValidation.Struct, grpc.validate.minInt, this]
    simp [grpc.serverAPI.IsAdmin, hv]
  · intro req c hc
    unfold grpc.serverAPI.Login at hc
    cases hv : grpc.LoginRequestValidation.Struct
        { Email := req.Email, Password := req.Password, AppId := req.AppId } with
    | false => simp [hv] at hc
    | true =>
      simp only [hv] at hc
      have hc' : c = .Login req.Email req.Password req.AppId := by
        rcases hres : s.auth.Login w req.Email req.Password req.AppId with ⟨⟨t, _ | e⟩, w'⟩ <;>
          simpa [hres] using hc
      refine ⟨hc', ?_⟩
      subst hc'
      simp [grpc.LoginRequestValidation.Struct, grpc.validate.requiredString,
        grpc.validate.minInt] at hv
      simp [grpc.AuthCall.validated, hv]
  · intro req c hc
    unfold grpc.serverAPI.Register at hc
    cases hv : grpc.RegisterRequestValidation.Struct
        { Email := req.Email, Password := req.Password } with
    | false => simp [hv] at hc
    | true =>
      simp only [hv] at hc
      have hc' : c = .RegisterNewUser req.Email req.Password := by
        rcases hres : s.auth.RegisterNewUser w req.Email req.Password with ⟨⟨t, _ | e⟩, w'⟩
        · simpa [hres] using hc
        · by_cases hex : errors.Is e .ErrUserExist = true <;> simpa [hres, hex] using hc
      refine ⟨hc', ?_⟩
      subst hc'
      simp [grpc.RegisterRequestValidation.Struct, grpc.validate.requiredString] at hv
      simp [grpc.AuthCall.validated, hv]
  · intro req c hc
    unfold grpc.serverAPI.IsAdmin at hc
    cases hv : grpc.IsAdminRequestValidation.Struct { UserId := req.UserId } with
    | false => simp [hv] at hc
    | true =>
      simp only [hv] at hc
      have hc' : c = .IsAdmin req.UserId := by
        rcases hres : s.auth.IsAdmin w req.UserId with ⟨⟨t, _ | e⟩, w'⟩
        · simpa [hres] using hc
        · by_cases hex : errors.Is e .ErrUserNotFound = true <;> simpa [hres, hex] using hc
      refine ⟨hc', ?_⟩
      subst hc'
      simp [grpc.IsAdminRequestValidation.Struct, grpc.validate.minInt] at hv
      simp [grpc.AuthCall.validated, hv]

/-- Witness of C8 on the concrete service and store: a Login request with app
id 0 is refused with no call made, and every call of a Login request with valid
fields is validated. -/
theorem C8_inputs_validated_before_service_witness :
    (grpc.RegisterServer demo.env demo.svc).Login demo.store
        { Email := "a@x.com", Password := "secret123", AppId := 0 } =
      ((none, some { code := .InvalidArgument, msg := "Request validation failed" }),
        demo.store, []) ∧
    (∀ c ∈ ((grpc.RegisterServer demo.env demo.svc).Login demo.store
        { Email := "a@x.com", Password := "secret123", AppId := 1 }).2.2,
      c = .Login "a@x.com" "secret123" 1 ∧ c.validated = true) :=
  ⟨(C8_inputs_validated_before_service (grpc.RegisterServer demo.env demo.svc) demo.store).1
      { Email := "a@x.com", Password := "secret123", AppId := 0 } (by decide),
    (C8_inputs_validated_before_service (grpc.RegisterServer demo.env demo.svc) demo.store).2.2.2.1
      { Email := "a@x.com", Password := "secret123", AppId := 1 }⟩

/-- C9: login failures are not told apart at the boundary.  For every
implementation of the `Auth` interface, every state and every valid Login request
(non-empty email and password, app id at least 1), whenever `Auth.Login` returns
an error, whatever it is, `serverAPI.Login` returns no response and the status
`Internal` with the message `Internal error`. -/
theorem C9_login_failure_is_internal {σ : Type} (s : grpc.serverAPI σ) (w : σ)
    (req : grpc.LoginRequest)
    (hemail : req.Email ≠ "") (hpw : req.Password ≠ "") (happ : 1 ≤ req.AppId)
    (err : GoError)
    (herr : (s.auth.Login w req.Email req.Password req.AppId).1.2 = some err) :
    (s.Login w req).1 = (none, some { code := .Internal, msg := "Internal error" }) := by
  have hne : req.AppId ≠ 0 := by omega
  rcases hres : s.auth.Login w req.Email req.Password req.AppId with ⟨⟨t, _ | e⟩, w'⟩
  · rw [hres] at herr
    cases herr
  · simp [grpc.serverAPI.Login, grpc.LoginRequestValidation.Struct,
      grpc.validate.requiredString, grpc.validate.requiredInt, grpc.validate.minInt,
      hemail, hpw, happ, hne, hres]

/-- Witness of C9 on the concrete service and store: a wrong password. -/
theorem C9_login_failure_is_internal_witness :
    ((grpc.RegisterServer demo.env demo.svc).Login demo.store
        { Email := "a@x.com", Password := "wrong", AppId := 1 }).1 =
      (none, some { code := .Internal, msg := "Internal error" }) :=
  C9_login_failure_is_internal (grpc.RegisterServer demo.env demo.svc) demo.store
    { Email := "a@x.com", Password := "wrong", AppId := 1 } (by decide) (by decide) (by decide)
    _ rfl

/-- C10: token issuance does not fail on legitimate input.  For every signing
configuration, whether `jwt.NewToken` fails is the same for every user, app, `ttl`
and clock reading: it depends on the signing key alone.  With a usable signing
key, for every user, app and positive `ttl`, `jwt.NewToken` returns no error and
a signed token whose assertion holds `user.ID`, `user.Email`, `app.ID` and the
expiry `now + ttl`; that expiry lies after `now`, the token verifies at `now`
against the key with exactly these claims, and it is rejected at every instant
after the expiry. -/
theorem C10_new_token_embeds_claims (s : jwt.Signer) (now : Int)
    (user : models.User) (app : models.App) (ttl : Int) :
    (∀ (now2 : Int) (user2 : models.User) (app2 : models.App) (ttl2 : Int),
      ((jwt.NewToken s now2 user2 app2 ttl2).2 = none ↔
        (jwt.NewToken s now user app ttl).2 = none)) ∧
    (∀ k, s.key = some k → 0 < ttl →
      ∃ tok,
        jwt.NewToken s now user app ttl = (some tok, none) ∧
        tok.claims =
          { uid := user.ID, email := user.Email, exp := now + ttl, app_id := app.ID } ∧
        tok.signature = s.mac k tok.claims ∧
        now < tok.claims.exp ∧
        jwt.Verify s now tok = some tok.claims ∧
        ∀ later, tok.claims.exp < later → jwt.Verify s later tok = none) := by
  refine ⟨?_, ?_⟩
  · intro now2 user2 app2 ttl2
    cases hkey : s.key <;> simp [jwt.NewToken, hkey]
  · intro k hkey httl
    refine ⟨{ claims := { uid := user.ID, email := user.Email, exp := now + ttl,
                          app_id := app.ID },
              signature := s.mac k { uid := user.ID, email := user.Email, exp := now + ttl,
                                     app_id := app.ID } }, ?_, rfl, rfl, ?_, ?_, ?_⟩
    · simp [jwt.NewToken, hkey]
    · show now < now + ttl
      omega
    · have hlt : now < now + ttl := by omega
      simp [jwt.Verify, hkey, hlt]
    · intro later hlater
      have hge : ¬ (later < now + ttl) := by
        have : now + ttl < later := hlater
        omega
      simp [jwt.Verify, hkey, hge]

/-- Witness of C10 on the input of `TestNewToken`: user 1, `test@example.com`,
app 1 and thirty minutes, with a configured key. -/
theorem C10_new_token_embeds_claims_witness :
    ∃ tok,
      jwt.NewToken demo.signer 0 demo.testUser demo.testApp 1800000000000 = (some tok, none) ∧
      tok.claims = { uid := 1, email := "test@example.com", exp := 0 + 1800000000000,
                     app_id := 1 } ∧
      tok.signature = demo.signer.mac [115, 51, 99] tok.claims ∧
      0 < tok.claims.exp ∧
      jwt.Verify demo.signer 0 tok = some tok.claims ∧
      ∀ later, tok.claims.exp < later → jwt.Verify demo.signer later tok = none :=
  (C10_new_token_embeds_claims demo.signer 0 demo.testUser demo.testApp 1800000000000).2
    [115, 51, 99] rfl (by decide)

end SSO
